import Mathlib

/-
Verification of the webgl-test repository against its specification.

The repository contains four behaviorally distinct rendering scripts:
  * TriApp  : the class-based triangle script in src/script.js (the class
              appears twice in that file, with identical behavior; one
              embedding covers both copies);
  * TriFree : the free-function triangle script in src/script.js;
  * TriSep  : the class-based triangle script with separate position and
              color buffers (first script of src/unnamed/part_000);
  * Cube    : the rotating-cube script (second script of src/unnamed/part_000).

Each script is shallowly embedded as a function from an environment — the
outcome of context acquisition and the driver-reported compile/link
statuses — to the trace of graphics-API events the script performs, in
source order.  JavaScript runtime semantics that the scripts rely on are
made explicit in the traces:
  * accessing a method of a null context throws a TypeError, which ends
    execution; this is the event Ev.nullDeref;
  * an uncaught thrown Error also ends execution (Ev.throwErr);
  * attaching a null shader to a program only records a GL error and does
    not throw, so execution continues past a failed compilation.
Numeric data is embedded over ℚ (0.8 = 4/5, 0.5 = 1/2).  Rotation angles
are recorded in units of π radians, so Math.PI / 100 is recorded as the
rational 1/100.
-/

/-- Outcome of canvas.getContext: a usable context, a null return without
an exception, or an exception raised by the call. -/
inductive CtxResult
  | ok
  | retNull
  | raises
deriving DecidableEq

/-- The two shader kinds used by every script. -/
inductive ShaderKind
  | VERTEX_SHADER
  | FRAGMENT_SHADER
deriving DecidableEq

/-- The only primitive mode any script draws with. -/
inductive DrawMode
  | TRIANGLES
deriving DecidableEq

/-- Rotation axes used by the cube's per-frame update. -/
inductive Axis
  | X
  | Y
  | Z
deriving DecidableEq

/-- Names of the vertex-shader attributes appearing in the scripts. -/
inductive AttrName
  | a_Position
  | a_Color
  | position
  | color
deriving DecidableEq

/-- Where a failure report is delivered: the developer console
(console.error) or a user-facing alert dialog. -/
inductive Channel
  | console
  | alertBox
deriving DecidableEq

/-- One observable event of a script run.  GL calls carry the arguments
the claims depend on; buffers are numbered in creation order within each
script.  Ev.report records a failure message and whether the message text
includes the driver's diagnostic text (the shader/program info log). -/
inductive Ev
  | clearColor (r g b a : ℚ)
  | enableDepthTest
  | depthFunc
  | viewport
  | clear
  | createShader (k : ShaderKind)
  | shaderSource (k : ShaderKind)
  | compileShader (k : ShaderKind)
  | compileStatusCheck (k : ShaderKind) (ok : Bool)
  | deleteShader (k : ShaderKind)
  | createProgram
  | attachShader (k : ShaderKind) (present : Bool)
  | linkProgram
  | linkStatusCheck (ok : Bool)
  | useProgram
  | getAttribLocation (a : AttrName)
  | getUniformLocation
  | createBuffer (id : Nat)
  | bindBuffer (id : Nat)
  | bufferData (floats : Nat)
  | vertexAttribPointer (a : AttrName) (size stride offset : Nat)
  | enableVertexAttribArray (a : AttrName)
  | uniformMatrix4fv
  | drawArrays (m : DrawMode) (first count : Nat)
  | rotate (ax : Axis) (angleInPiUnits : ℚ)
  | matScale
  | requestFrame
  | report (ch : Channel) (withDriverLog : Bool)
  | throwErr
  | nullDeref
deriving DecidableEq

/-- The environment a script runs in: how context acquisition turns out
and what the driver answers for the compile/link status queries. -/
structure Env where
  ctx : CtxResult
  vsOk : Bool
  fsOk : Bool
  linkOk : Bool
deriving DecidableEq

/-- A context handle is available exactly when getContext succeeded. -/
def hasGL : CtxResult → Bool
  | .ok => true
  | _ => false

/-- Recognize a draw submission. -/
def isDraw : Ev → Bool
  | .drawArrays _ _ _ => true
  | _ => false

/-- Recognize a failure report of either kind. -/
def isReport : Ev → Bool
  | .report _ _ => true
  | _ => false

/-- Recognize an attribute-location query. -/
def isGetAttrib : Ev → Bool
  | .getAttribLocation _ => true
  | _ => false

/-- Recognize the linkProgram call. -/
def isLinkProgram : Ev → Bool
  | .linkProgram => true
  | _ => false

/-- Recognize the useProgram call. -/
def isUseProgram : Ev → Bool
  | .useProgram => true
  | _ => false

/-- Recognize the detection of a compile or link failure: a status query
that the driver answered negatively. -/
def isFailureDetection : Ev → Bool
  | .compileStatusCheck _ ok => !ok
  | .linkStatusCheck ok => !ok
  | _ => false

/-- True when some event satisfying p is strictly followed, later in the
trace, by an event satisfying q. -/
def existsAfter (p q : Ev → Bool) : List Ev → Bool
  | [] => false
  | e :: rest => (p e && rest.any q) || existsAfter p q rest

/-- Worker for allPrecededBy; seen records whether an event satisfying
pre has already occurred. -/
def allPrecededByAux (p pre : Ev → Bool) : Bool → List Ev → Bool
  | _, [] => true
  | seen, e :: rest => (!(p e) || seen) && allPrecededByAux p pre (seen || pre e) rest

/-- True when every event satisfying p is preceded, strictly earlier in
the trace, by some event satisfying pre. -/
def allPrecededBy (p pre : Ev → Bool) (t : List Ev) : Bool :=
  allPrecededByAux p pre false t

/-- The failure reports of a trace, in order: channel and whether the
message includes the driver's diagnostic text. -/
def reportsOf (t : List Ev) : List (Channel × Bool) :=
  t.filterMap fun e =>
    match e with
    | .report ch lg => some (ch, lg)
    | _ => none

/-- The draw submissions of a trace, in order. -/
def drawsOf (t : List Ev) : List Ev :=
  t.filter isDraw

/-- The matrix rotations of a trace, in order: axis and angle in units
of π radians. -/
def rotationsOf (t : List Ev) : List (Axis × ℚ) :=
  t.filterMap fun e =>
    match e with
    | .rotate ax a => some (ax, a)
    | _ => none

/-- The buffer-related GL state tracked while replaying a trace: the
buffer currently bound to ARRAY_BUFFER, the buffers that have received
bufferData, and the buffer each attribute is currently sourced from. -/
structure GLState where
  bound : Option Nat
  uploaded : List Nat
  attached : List (AttrName × Nat)
deriving DecidableEq

/-- The state before any GL call. -/
def initState : GLState := ⟨none, [], []⟩

/-- Repoint an attribute at a buffer, replacing any previous source. -/
def setAttached (l : List (AttrName × Nat)) (a : AttrName) (b : Nat) :
    List (AttrName × Nat) :=
  (a, b) :: l.filter fun x => !(x.1 == a)

/-- One step of the buffer-state machine. -/
def stepState (s : GLState) : Ev → GLState
  | .bindBuffer b => { s with bound := some b }
  | .bufferData _ =>
      match s.bound with
      | some b => { s with uploaded := b :: s.uploaded }
      | none => s
  | .vertexAttribPointer a _ _ _ =>
      match s.bound with
      | some b => { s with attached := setAttached s.attached a b }
      | none => s
  | _ => s

/-- A draw is safe in state s when every buffer attached as an attribute
source has been uploaded. -/
def drawOk (s : GLState) : Bool :=
  s.attached.all fun x => s.uploaded.contains x.2

/-- Replay a trace from state s, checking at every draw submission that
all attached buffers have already received their data. -/
def uploadedBeforeDraw : GLState → List Ev → Bool
  | _, [] => true
  | s, e :: rest => (!(isDraw e) || drawOk s) && uploadedBeforeDraw (stepState s e) rest

namespace TriApp

/-- Interleaved position/color vertex data of the class-based triangle
(x, y, r, g, b per vertex); 0.8 = 4/5, 0.5 = 1/2. -/
def triangleVertices : List ℚ :=
  [-4/5, -1/2, 1, 0, 0,
    0, 4/5, 0, 1, 0,
    4/5, -1/2, 0, 0, 1]

/-- WebGLApp.initWebGL: getContext inside try/catch; only a raised
exception reaches the console.error call, a null return is silent. -/
def initWebGL : CtxResult → List Ev
  | .ok => []
  | .retNull => []
  | .raises => [.report .console false]

/-- WebGLApp.compileShader: create, source, compile, status query; on
failure, console.error with the shader info log, then deleteShader. -/
def compileShaderTrace (k : ShaderKind) (ok : Bool) : List Ev :=
  [.createShader k, .shaderSource k, .compileShader k, .compileStatusCheck k ok] ++
    (if ok then [] else [.report .console true, .deleteShader k])

/-- WebGLApp.initShaders: compile both shaders, create/attach/link the
program, query LINK_STATUS; on link failure console.error a fixed message
(no info log) and return early, otherwise useProgram and query the two
attribute locations. -/
def initShaders (e : Env) : List Ev :=
  compileShaderTrace .VERTEX_SHADER e.vsOk ++
  compileShaderTrace .FRAGMENT_SHADER e.fsOk ++
  [.createProgram, .attachShader .VERTEX_SHADER e.vsOk,
   .attachShader .FRAGMENT_SHADER e.fsOk, .linkProgram, .linkStatusCheck e.linkOk] ++
  (if e.linkOk then
    [.useProgram, .getAttribLocation .a_Position, .getAttribLocation .a_Color]
   else [.report .console false])

/-- WebGLApp.initBuffers: one buffer, bound and filled with the 15
floats of triangleVertices. -/
def initBuffers : List Ev :=
  [.createBuffer 0, .bindBuffer 0, .bufferData triangleVertices.length]

/-- WebGLApp.init: guarded by if (this.gl); with a context it sets up
clear color, depth test, viewport, shaders and buffers, otherwise it
does nothing at all. -/
def init (e : Env) : List Ev :=
  if hasGL e.ctx then
    [.clearColor 0 0 0 1, .enableDepthTest, .depthFunc, .viewport] ++
      initShaders e ++ initBuffers
  else []

/-- WebGLApp.draw: unguarded; with a context it clears, binds the
triangle buffer, sets both attribute pointers (stride 20 bytes, offsets
0 and 8), enables them and draws 3 vertices; with a null context its
first statement this.gl.clear throws a TypeError. -/
def draw (e : Env) : List Ev :=
  if hasGL e.ctx then
    [.clear, .bindBuffer 0,
     .vertexAttribPointer .a_Position 2 20 0,
     .vertexAttribPointer .a_Color 3 20 8,
     .enableVertexAttribArray .a_Position,
     .enableVertexAttribArray .a_Color,
     .drawArrays .TRIANGLES 0 3]
  else [.nullDeref]

/-- start: construct the app (running initWebGL), then init, then draw. -/
def start (e : Env) : List Ev :=
  initWebGL e.ctx ++ init e ++ draw e

end TriApp

namespace TriFree

/-- Interleaved position/color vertex data of the free-function triangle
(identical values to the class variant). -/
def triangle_vertex : List ℚ :=
  [-4/5, -1/2, 1, 0, 0,
    0, 4/5, 0, 1, 0,
    4/5, -1/2, 0, 0, 1]

/-- initWebGL (free-function variant): getContext inside try/catch; in
the catch handler gl is still null, so a raised exception triggers a
user-facing alert; a null return is silent. -/
def initWebGL : CtxResult → List Ev
  | .ok => []
  | .retNull => []
  | .raises => [.report .alertBox false]

/-- getShader: create, source, compile, status query; on failure an
alert with the shader info log and a null return, with no deleteShader. -/
def getShader (k : ShaderKind) (ok : Bool) : List Ev :=
  [.createShader k, .shaderSource k, .compileShader k, .compileStatusCheck k ok] ++
    (if ok then [] else [.report .alertBox true])

/-- initShaders (free-function variant): compile the fragment shader
first, then the vertex shader; create/attach/link the program, query
LINK_STATUS; on failure alert a fixed message (no info log) but do not
return, so useProgram runs regardless. -/
def initShaders (e : Env) : List Ev :=
  getShader .FRAGMENT_SHADER e.fsOk ++
  getShader .VERTEX_SHADER e.vsOk ++
  [.createProgram, .attachShader .VERTEX_SHADER e.vsOk,
   .attachShader .FRAGMENT_SHADER e.fsOk, .linkProgram, .linkStatusCheck e.linkOk] ++
  (if e.linkOk then [] else [.report .alertBox false]) ++
  [.useProgram]

/-- initBuffer: query and enable both attribute locations, create, bind
and fill the buffer, set both attribute pointers, then draw 3 vertices. -/
def initBuffer : List Ev :=
  [.getAttribLocation .a_Position, .getAttribLocation .a_Color,
   .enableVertexAttribArray .a_Position, .enableVertexAttribArray .a_Color,
   .createBuffer 0, .bindBuffer 0, .bufferData triangle_vertex.length,
   .vertexAttribPointer .a_Position 2 20 0,
   .vertexAttribPointer .a_Color 3 20 8,
   .drawArrays .TRIANGLES 0 3]

/-- start (free-function variant): acquire the context; the remaining
work, including the draw inside initBuffer, is guarded by if (gl). -/
def start (e : Env) : List Ev :=
  initWebGL e.ctx ++
    (if hasGL e.ctx then
      [.clearColor 0 0 0 1, .enableDepthTest, .depthFunc, .clear, .viewport] ++
        initShaders e ++ initBuffer
     else [])

end TriFree

namespace TriSep

/-- Position data of the separate-buffer triangle (x, y per vertex). -/
def vertexData : List ℚ := [0, 1, -1, -1, 1, -1]

/-- Color data of the separate-buffer triangle (r, g, b per vertex). -/
def colorData : List ℚ := [1, 0, 0, 0, 1, 0, 0, 0, 1]

/-- WebGLApp.initWebGL of the separate-buffer variant: identical to the
class variant in script.js. -/
def initWebGL : CtxResult → List Ev
  | .ok => []
  | .retNull => []
  | .raises => [.report .console false]

/-- WebGLApp.compileShader of the separate-buffer variant: identical
control flow to the class variant in script.js. -/
def compileShaderTrace (k : ShaderKind) (ok : Bool) : List Ev :=
  [.createShader k, .shaderSource k, .compileShader k, .compileStatusCheck k ok] ++
    (if ok then [] else [.report .console true, .deleteShader k])

/-- WebGLApp.initShaders of the separate-buffer variant: same control
flow as the class variant, with attribute names position and color. -/
def initShaders (e : Env) : List Ev :=
  compileShaderTrace .VERTEX_SHADER e.vsOk ++
  compileShaderTrace .FRAGMENT_SHADER e.fsOk ++
  [.createProgram, .attachShader .VERTEX_SHADER e.vsOk,
   .attachShader .FRAGMENT_SHADER e.fsOk, .linkProgram, .linkStatusCheck e.linkOk] ++
  (if e.linkOk then
    [.useProgram, .getAttribLocation .position, .getAttribLocation .color]
   else [.report .console false])

/-- WebGLApp.initBuffers of the separate-buffer variant: both buffers
are created first, then each is bound and filled in turn (6 position
floats, 9 color floats). -/
def initBuffers : List Ev :=
  [.createBuffer 0, .createBuffer 1,
   .bindBuffer 0, .bufferData vertexData.length,
   .bindBuffer 1, .bufferData colorData.length]

/-- WebGLApp.init of the separate-buffer variant: guarded by
if (this.gl); the clear color is white here. -/
def init (e : Env) : List Ev :=
  if hasGL e.ctx then
    [.clearColor 1 1 1 1, .enableDepthTest, .depthFunc, .viewport] ++
      initShaders e ++ initBuffers
  else []

/-- WebGLApp.draw of the separate-buffer variant: unguarded; binds each
buffer before pointing its attribute at it (tightly packed, stride 0),
then draws 3 vertices; with a null context this.gl.clear throws. -/
def draw (e : Env) : List Ev :=
  if hasGL e.ctx then
    [.clear, .bindBuffer 0,
     .vertexAttribPointer .position 2 0 0,
     .bindBuffer 1,
     .vertexAttribPointer .color 3 0 0,
     .enableVertexAttribArray .position,
     .enableVertexAttribArray .color,
     .drawArrays .TRIANGLES 0 3]
  else [.nullDeref]

/-- start: construct the app (running initWebGL), then init, then draw. -/
def start (e : Env) : List Ev :=
  initWebGL e.ctx ++ init e ++ draw e

end TriSep

namespace Cube

/-- Cube position data: 6 faces, each two triangles of 3 vertices, with
3 coordinates per vertex, 108 floats in all. -/
def vertexData : List ℚ :=
  [1, 1, 1, 1, -1, 1, -1, 1, 1, -1, 1, 1, 1, -1, 1, -1, -1, 1,
   1, 1, -1, 1, -1, -1, -1, 1, -1, -1, 1, -1, 1, -1, -1, -1, -1, -1,
   1, 1, 1, 1, 1, -1, -1, 1, 1, -1, 1, 1, 1, 1, -1, -1, 1, -1,
   1, -1, 1, 1, -1, -1, -1, -1, 1, -1, -1, 1, 1, -1, -1, -1, -1, -1,
   1, 1, 1, 1, 1, -1, 1, -1, 1, 1, -1, 1, 1, 1, -1, 1, -1, -1,
   -1, 1, 1, -1, 1, -1, -1, -1, 1, -1, -1, 1, -1, 1, -1, -1, -1, -1]

/-- The six face colors, one RGB triple per face:
red, green, blue, yellow, magenta, cyan. -/
def colorData : List (List ℚ) :=
  [[1, 0, 0], [0, 1, 0], [0, 0, 1], [1, 1, 0], [1, 0, 1], [0, 1, 1]]

/-- The per-vertex color array.  The source loop runs i from 0 to 5 over
colorData and executes colors = colors.concat(c, c, c, c, c, c); Array
concat with array arguments appends their elements, so each face color is
appended six times as a flat RGB triple.  The later colors.flat() on this
already-flat numeric array is the identity, so the upload length is
colors.length. -/
def colors : List ℚ :=
  colorData.foldl (fun acc c => acc ++ (c ++ c ++ c ++ c ++ c ++ c)) []

/-- The top-level setup of the cube script, run once with a usable
context: upload both buffers, compile both shaders with no status
checks, create/attach/link the program with no status check, query and
wire both attributes, useProgram, depth test, uniform location, the
initial mat4 scale, then the first uniform upload and draw. -/
def setup : List Ev :=
  [.createBuffer 0, .bindBuffer 0, .bufferData vertexData.length,
   .createBuffer 1, .bindBuffer 1, .bufferData colors.length,
   .createShader .VERTEX_SHADER, .shaderSource .VERTEX_SHADER,
   .compileShader .VERTEX_SHADER,
   .createShader .FRAGMENT_SHADER, .shaderSource .FRAGMENT_SHADER,
   .compileShader .FRAGMENT_SHADER,
   .createProgram, .attachShader .VERTEX_SHADER true,
   .attachShader .FRAGMENT_SHADER true, .linkProgram,
   .getAttribLocation .position, .enableVertexAttribArray .position,
   .bindBuffer 0, .vertexAttribPointer .position 3 0 0,
   .getAttribLocation .color, .enableVertexAttribArray .color,
   .bindBuffer 1, .vertexAttribPointer .color 3 0 0,
   .useProgram, .enableDepthTest,
   .getUniformLocation, .matScale,
   .uniformMatrix4fv, .drawArrays .TRIANGLES 0 (vertexData.length / 3)]

/-- One call of the per-frame update animate: schedule the next frame,
rotate the matrix about Z, X and Y by Math.PI / 100 each (recorded as
1/100 in units of π), upload the matrix uniform and draw; the body has
no branching and no other arithmetic. -/
def animate : List Ev :=
  [.requestFrame,
   .rotate .Z (1/100), .rotate .X (1/100), .rotate .Y (1/100),
   .uniformMatrix4fv, .drawArrays .TRIANGLES 0 (vertexData.length / 3)]

/-- A run of the cube script with the given context outcome and number
of animation frames: if (!gl) throw new Error stops everything (an
exception raised by getContext itself propagates uncaught the same way);
otherwise setup runs once and animate once per frame. -/
def run (c : CtxResult) (frames : Nat) : List Ev :=
  if hasGL c then setup ++ (List.replicate frames animate).flatten
  else [.throwErr]

end Cube

/-- Recognize a compileShader call. -/
def isCompileCall : Ev → Bool
  | .compileShader _ => true
  | _ => false

/-- any over a flattened replication is false when it is false on the
replicated block. -/
theorem any_flatten_replicate (p : Ev → Bool) (xs : List Ev)
    (h : xs.any p = false) (n : Nat) :
    ((List.replicate n xs).flatten.any p) = false := by
  induction n with
  | zero => rfl
  | succ k ih => rw [List.replicate_succ, List.flatten_cons, List.any_append, h, ih]; rfl

/-- A cube run with a usable context satisfies any p = false as soon as
both the setup block and the animate block do. -/
theorem any_run_ok_false (p : Ev → Bool) (hs : Cube.setup.any p = false)
    (hf : Cube.animate.any p = false) (n : Nat) :
    (Cube.run .ok n).any p = false := by
  have hrun : Cube.run .ok n = Cube.setup ++ (List.replicate n Cube.animate).flatten := rfl
  rw [hrun, List.any_append, hs, any_flatten_replicate p _ hf n]
  rfl

/-- countP of a cube run with a usable context equals the countP of the
setup block when the animate block contributes nothing. -/
theorem countP_run_ok (p : Ev → Bool) (hf : Cube.animate.any p = false) (n : Nat) :
    (Cube.run .ok n).countP p = Cube.setup.countP p := by
  have hrun : Cube.run .ok n = Cube.setup ++ (List.replicate n Cube.animate).flatten := rfl
  have h0 : ((List.replicate n Cube.animate).flatten).countP p = 0 := by
    rw [List.countP_eq_zero]
    exact List.any_eq_false.mp (any_flatten_replicate p _ hf n)
  rw [hrun, List.countP_append, h0, Nat.add_zero]

/-- The upload checker distributes over trace concatenation. -/
theorem uploadedBeforeDraw_append (xs ys : List Ev) :
    ∀ s, uploadedBeforeDraw s (xs ++ ys) =
      (uploadedBeforeDraw s xs && uploadedBeforeDraw (xs.foldl stepState s) ys) := by
  induction xs with
  | nil => intro s; simp [uploadedBeforeDraw]
  | cons e rest ih => intro s; simp [uploadedBeforeDraw, ih, Bool.and_assoc]

/-- One animate frame touches no buffer state. -/
theorem foldl_stepState_animate (s : GLState) :
    Cube.animate.foldl stepState s = s := rfl

/-- Replaying one animate frame reduces to the draw check in the
entering state. -/
theorem uploadedBeforeDraw_animate (s : GLState) :
    uploadedBeforeDraw s Cube.animate = drawOk s := by
  cases h : drawOk s <;>
    simp [uploadedBeforeDraw, Cube.animate, stepState, isDraw, h]

/-- Any number of animate frames passes the upload checker from a state
whose attached buffers are all uploaded. -/
theorem uploadedBeforeDraw_frames (n : Nat) (s : GLState) (h : drawOk s = true) :
    uploadedBeforeDraw s ((List.replicate n Cube.animate).flatten) = true := by
  induction n with
  | zero => rfl
  | succ k ih =>
      rw [List.replicate_succ, List.flatten_cons, uploadedBeforeDraw_append,
        foldl_stepState_animate, uploadedBeforeDraw_animate, h, ih]
      rfl

/-- The precedence checker distributes over trace concatenation; the
seen flag after the first block is its any pre. -/
theorem allPrecededByAux_append (p pre : Ev → Bool) (xs ys : List Ev) :
    ∀ seen, allPrecededByAux p pre seen (xs ++ ys) =
      (allPrecededByAux p pre seen xs &&
        allPrecededByAux p pre (seen || xs.any pre) ys) := by
  induction xs with
  | nil => intro seen; simp [allPrecededByAux]
  | cons e rest ih =>
      intro seen
      simp [allPrecededByAux, ih, Bool.and_assoc, Bool.or_assoc]

/-- A block with no target events passes the precedence checker from
any seen flag. -/
theorem allPrecededByAux_of_no_target (p pre : Ev → Bool) (xs : List Ev)
    (h : xs.any p = false) : ∀ seen, allPrecededByAux p pre seen xs = true := by
  induction xs with
  | nil => intro seen; rfl
  | cons e rest ih =>
      intro seen
      rw [List.any_cons, Bool.or_eq_false_iff] at h
      simp [allPrecededByAux, h.1, ih h.2]

/-- A cube run with a usable context passes the precedence checker when
the setup block does and the animate block has no target events. -/
theorem allPrecededBy_run_ok (p pre : Ev → Bool)
    (hs : allPrecededByAux p pre false Cube.setup = true)
    (hf : Cube.animate.any p = false) (n : Nat) :
    allPrecededBy p pre (Cube.run .ok n) = true := by
  have hrun : Cube.run .ok n = Cube.setup ++ (List.replicate n Cube.animate).flatten := rfl
  unfold allPrecededBy
  rw [hrun, allPrecededByAux_append, hs,
    allPrecededByAux_of_no_target p pre _
      (any_flatten_replicate p _ hf n) _]
  rfl

/-- C1: the cube's per-frame update issues exactly one TRIANGLES draw
whose submitted vertex count is vertexData.length / 3 = 36.  The cube
uses a non-indexed drawArrays call, so the 36 indices of the spec are
the 36 vertices submitted per draw. -/
theorem C1_cube_per_frame_draw_count :
    drawsOf Cube.animate = [.drawArrays .TRIANGLES 0 (Cube.vertexData.length / 3)] ∧
    Cube.vertexData.length = 108 ∧
    Cube.vertexData.length / 3 = 36 ∧
    drawsOf Cube.animate = [.drawArrays .TRIANGLES 0 36] := by decide

/-- C6: each of the three triangle variants, run with a successful
setup, issues exactly one draw call, a TRIANGLES draw of 3 vertices
starting at offset 0. -/
theorem C6_triangle_draw_three_vertices :
    drawsOf (TriApp.start ⟨.ok, true, true, true⟩) = [.drawArrays .TRIANGLES 0 3] ∧
    drawsOf (TriFree.start ⟨.ok, true, true, true⟩) = [.drawArrays .TRIANGLES 0 3] ∧
    drawsOf (TriSep.start ⟨.ok, true, true, true⟩) = [.drawArrays .TRIANGLES 0 3] := by
  decide

/-- C7: one call of the cube's per-frame update performs exactly three
matrix rotations, one about each of the axes Z, X, Y in that order, each
by the same fixed increment Math.PI / 100 (recorded as 1/100 in units of
π radians), and no other rotation; the body of animate is a fixed
straight-line sequence with no branching. -/
theorem C7_animate_rotation_increments :
    rotationsOf Cube.animate = [(.Z, 1/100), (.X, 1/100), (.Y, 1/100)] ∧
    (∀ ax : Axis, ((rotationsOf Cube.animate).filter fun r => r.1 == ax).length = 1) ∧
    (rotationsOf Cube.animate).map Prod.snd = [1/100, 1/100, 1/100] := by
  refine ⟨rfl, ?_, rfl⟩
  intro ax
  cases ax <;> decide

/-- C9: with a null context (whether getContext returned null or threw),
WebGLApp.init performs no GL operation at all, but WebGLApp.draw is
unguarded, so start still reaches draw, whose first statement
this.gl.clear dereferences the null context and throws; no draw
submission ever happens. -/
theorem C9_null_context_guarded_init_unguarded_draw :
    ∀ vs fs lk : Bool,
      TriApp.init ⟨.retNull, vs, fs, lk⟩ = [] ∧
      TriApp.init ⟨.raises, vs, fs, lk⟩ = [] ∧
      TriApp.draw ⟨.retNull, vs, fs, lk⟩ = [.nullDeref] ∧
      TriApp.draw ⟨.raises, vs, fs, lk⟩ = [.nullDeref] ∧
      TriApp.start ⟨.retNull, vs, fs, lk⟩ = [.nullDeref] ∧
      TriApp.start ⟨.raises, vs, fs, lk⟩ = [.report .console false, .nullDeref] ∧
      (TriApp.start ⟨.retNull, vs, fs, lk⟩).any isDraw = false := by decide

/-- C10: the cube's color array appends each of the six face colors
(red, green, blue, yellow, magenta, cyan) exactly six times as a flat
RGB triple, yielding 108 floats, one 3-component color per vertex,
matching the 36 vertices of the position data. -/
theorem C10_cube_colors_structure :
    Cube.colors = (Cube.colorData.map fun c => (List.replicate 6 c).flatten).flatten ∧
    Cube.colors.length = 108 ∧
    Cube.colorData.length = 6 ∧
    (Cube.colorData.all fun c => c.length == 3) = true ∧
    Cube.colors.length = Cube.vertexData.length ∧
    Cube.vertexData.length / 3 = 36 ∧
    Cube.colors.length / 3 = 36 := by decide

/-- C2 counterexample: in the free-function triangle script run with a
usable context, compiling shaders that succeed and a link that fails,
the link failure is detected (LINK_STATUS queried false) and a draw call
is nevertheless issued later in the same run, refuting the claim that no
draw call is ever issued after a detected failure. -/
theorem C2_counterexample_draw_after_link_failure :
    (TriFree.start ⟨.ok, true, true, false⟩).contains (.linkStatusCheck false) = true ∧
    existsAfter isFailureDetection isDraw (TriFree.start ⟨.ok, true, true, false⟩) = true := by
  decide

/-- C3 counterexample: in the class-based triangle script run with a
usable context and a link failure, the failure is detected, yet the only
report of the whole run is a console message whose text does not include
the driver's diagnostic text, refuting the claim that link failures are
reported with the info log. -/
theorem C3_counterexample_link_report_lacks_log :
    (TriApp.start ⟨.ok, true, true, false⟩).contains (.linkStatusCheck false) = true ∧
    reportsOf (TriApp.start ⟨.ok, true, true, false⟩) = [(.console, false)] := by decide

/-- C4 counterexample: in the class-based triangle script, when
getContext returns null without throwing — a context-acquisition failure
— the run emits no message at all, user-facing or otherwise, refuting
the claim that every context-acquisition failure is reported via a
user-facing message. -/
theorem C4_counterexample_null_context_unreported :
    reportsOf (TriApp.start ⟨.retNull, true, true, true⟩) = [] ∧
    (TriApp.start ⟨.retNull, true, true, true⟩).any isReport = false := by decide

/-- C5 counterexample: in the cube script's run, both getAttribLocation
calls occur and useProgram occurs, but the attribute queries are not all
preceded by useProgram (they happen before it), refuting the claim that
attribute locations are queried only after useProgram. -/
theorem C5_counterexample_cube_attrib_before_useProgram :
    allPrecededBy isGetAttrib isUseProgram (Cube.run .ok 1) = false ∧
    (Cube.run .ok 1).contains (.getAttribLocation .position) = true ∧
    (Cube.run .ok 1).contains .useProgram = true := by decide

/-- C2 amended: after a context-acquisition failure no script ever
issues a draw call, and no script has a recovery path (at most one
linkProgram call and at most one compilation per shader, two in all,
ever happen); but after a detected compile or link failure the three
triangle scripts do not stop rendering: a draw call is issued later in
the same run exactly when some failure was detected, while the cube
script never queries a compile/link status, so it never detects such a
failure at all. -/
theorem C2_failure_handling_amended :
    (∀ vs fs lk : Bool,
      (TriApp.start ⟨.retNull, vs, fs, lk⟩).any isDraw = false ∧
      (TriApp.start ⟨.raises, vs, fs, lk⟩).any isDraw = false ∧
      (TriFree.start ⟨.retNull, vs, fs, lk⟩).any isDraw = false ∧
      (TriFree.start ⟨.raises, vs, fs, lk⟩).any isDraw = false ∧
      (TriSep.start ⟨.retNull, vs, fs, lk⟩).any isDraw = false ∧
      (TriSep.start ⟨.raises, vs, fs, lk⟩).any isDraw = false ∧
      existsAfter isFailureDetection isDraw (TriApp.start ⟨.ok, vs, fs, lk⟩)
        = !(vs && fs && lk) ∧
      existsAfter isFailureDetection isDraw (TriFree.start ⟨.ok, vs, fs, lk⟩)
        = !(vs && fs && lk) ∧
      existsAfter isFailureDetection isDraw (TriSep.start ⟨.ok, vs, fs, lk⟩)
        = !(vs && fs && lk) ∧
      (TriApp.start ⟨.ok, vs, fs, lk⟩).countP isLinkProgram ≤ 1 ∧
      (TriFree.start ⟨.ok, vs, fs, lk⟩).countP isLinkProgram ≤ 1 ∧
      (TriSep.start ⟨.ok, vs, fs, lk⟩).countP isLinkProgram ≤ 1 ∧
      (TriApp.start ⟨.ok, vs, fs, lk⟩).countP isCompileCall ≤ 2 ∧
      (TriFree.start ⟨.ok, vs, fs, lk⟩).countP isCompileCall ≤ 2 ∧
      (TriSep.start ⟨.ok, vs, fs, lk⟩).countP isCompileCall ≤ 2) ∧
    (∀ n : Nat,
      Cube.run .retNull n = [.throwErr] ∧
      Cube.run .raises n = [.throwErr] ∧
      (Cube.run .ok n).any isFailureDetection = false ∧
      (Cube.run .ok n).countP isLinkProgram ≤ 1 ∧
      (Cube.run .ok n).countP isCompileCall ≤ 2) := by
  constructor
  · decide
  · intro n
    refine ⟨rfl, rfl, any_run_ok_false _ (by decide) (by decide) n, ?_, ?_⟩
    · rw [countP_run_ok _ (by decide) n]; decide
    · rw [countP_run_ok _ (by decide) n]; decide

/-- C3 amended: in the three triangle scripts a compile failure is
reported (console.error in the class variants, alert in the
free-function variant) with a message that includes the shader info log,
but a link failure is reported with a fixed message that does not
include the driver's diagnostic text; the cube script never checks
compile or link status and reports nothing at all.  The reports of a run
are characterized exactly, in order. -/
theorem C3_reporting_amended :
    (∀ vs fs lk : Bool,
      reportsOf (TriApp.start ⟨.ok, vs, fs, lk⟩) =
        (if vs then [] else [(.console, true)]) ++
        (if fs then [] else [(.console, true)]) ++
        (if lk then [] else [(.console, false)]) ∧
      reportsOf (TriFree.start ⟨.ok, vs, fs, lk⟩) =
        (if fs then [] else [(.alertBox, true)]) ++
        (if vs then [] else [(.alertBox, true)]) ++
        (if lk then [] else [(.alertBox, false)]) ∧
      reportsOf (TriSep.start ⟨.ok, vs, fs, lk⟩) =
        (if vs then [] else [(.console, true)]) ++
        (if fs then [] else [(.console, true)]) ++
        (if lk then [] else [(.console, false)])) ∧
    (∀ (c : CtxResult) (n : Nat), (Cube.run c n).any isReport = false) := by
  constructor
  · decide
  · intro c n
    cases c with
    | ok => exact any_run_ok_false _ (by decide) (by decide) n
    | retNull => rfl
    | raises => rfl

/-- C4 amended: a context-acquisition failure is reported only when
getContext raises an exception — via console.error (a log, not a
user-facing message) in the two class-based scripts and via a
user-facing alert in the free-function script; when getContext returns
null without raising, no message of any kind is reported; the cube
script throws an uncaught Error instead of reporting a message. -/
theorem C4_context_failure_reporting_amended :
    (∀ vs fs lk : Bool,
      reportsOf (TriApp.start ⟨.retNull, vs, fs, lk⟩) = [] ∧
      reportsOf (TriApp.start ⟨.raises, vs, fs, lk⟩) = [(.console, false)] ∧
      reportsOf (TriFree.start ⟨.retNull, vs, fs, lk⟩) = [] ∧
      reportsOf (TriFree.start ⟨.raises, vs, fs, lk⟩) = [(.alertBox, false)] ∧
      reportsOf (TriSep.start ⟨.retNull, vs, fs, lk⟩) = [] ∧
      reportsOf (TriSep.start ⟨.raises, vs, fs, lk⟩) = [(.console, false)]) ∧
    (∀ n : Nat, Cube.run .retNull n = [.throwErr] ∧ Cube.run .raises n = [.throwErr]) := by
  constructor
  · decide
  · intro n; exact ⟨rfl, rfl⟩

/-- C5 amended: in every script and every environment, every
getAttribLocation call is preceded by the linkProgram call; in the three
triangle scripts every getAttribLocation call is also preceded by
useProgram; in the cube script it is the other way around: the two
attribute locations are queried after linkProgram but before useProgram
(useProgram is preceded by the queries, not the queries by useProgram). -/
theorem C5_attrib_query_order_amended :
    (∀ (c : CtxResult) (vs fs lk : Bool),
      allPrecededBy isGetAttrib isLinkProgram (TriApp.start ⟨c, vs, fs, lk⟩) = true ∧
      allPrecededBy isGetAttrib isLinkProgram (TriFree.start ⟨c, vs, fs, lk⟩) = true ∧
      allPrecededBy isGetAttrib isLinkProgram (TriSep.start ⟨c, vs, fs, lk⟩) = true ∧
      allPrecededBy isGetAttrib isUseProgram (TriApp.start ⟨c, vs, fs, lk⟩) = true ∧
      allPrecededBy isGetAttrib isUseProgram (TriFree.start ⟨c, vs, fs, lk⟩) = true ∧
      allPrecededBy isGetAttrib isUseProgram (TriSep.start ⟨c, vs, fs, lk⟩) = true) ∧
    (∀ (c : CtxResult) (n : Nat),
      allPrecededBy isGetAttrib isLinkProgram (Cube.run c n) = true) ∧
    (∀ n : Nat,
      allPrecededBy isUseProgram isGetAttrib (Cube.run .ok n) = true) ∧
    (∀ n : Nat,
      allPrecededBy isGetAttrib isUseProgram (Cube.run .ok n) = false) := by
  refine ⟨?_, ?_, ?_, ?_⟩
  · intro c vs fs lk
    cases c <;> revert vs fs lk <;> decide
  · intro c n
    cases c with
    | ok => exact allPrecededBy_run_ok _ _ (by decide) (by decide) n
    | retNull => rfl
    | raises => rfl
  · intro n
    exact allPrecededBy_run_ok _ _ (by decide) (by decide) n
  · intro n
    have hrun : Cube.run .ok n = Cube.setup ++ (List.replicate n Cube.animate).flatten := rfl
    unfold allPrecededBy
    rw [hrun, allPrecededByAux_append]
    have hs : allPrecededByAux isGetAttrib isUseProgram false Cube.setup = false := by decide
    rw [hs]
    rfl

/-- C8: in every script and every environment, every buffer that is
attached as an attribute source at the moment of a draw call has
received its bufferData upload earlier in the run — verified by
replaying each trace through the buffer-state machine; for the cube this
holds for every number of animation frames. -/
theorem C8_buffers_uploaded_before_draw :
    (∀ (c : CtxResult) (vs fs lk : Bool),
      uploadedBeforeDraw initState (TriApp.start ⟨c, vs, fs, lk⟩) = true ∧
      uploadedBeforeDraw initState (TriFree.start ⟨c, vs, fs, lk⟩) = true ∧
      uploadedBeforeDraw initState (TriSep.start ⟨c, vs, fs, lk⟩) = true) ∧
    (∀ (c : CtxResult) (n : Nat),
      uploadedBeforeDraw initState (Cube.run c n) = true) := by
  constructor
  · intro c vs fs lk
    cases c <;> revert vs fs lk <;> decide
  · intro c n
    cases c with
    | ok =>
        have hrun : Cube.run .ok n = Cube.setup ++ (List.replicate n Cube.animate).flatten := rfl
        rw [hrun, uploadedBeforeDraw_append]
        have h1 : uploadedBeforeDraw initState Cube.setup = true := by decide
        have h2 : drawOk (Cube.setup.foldl stepState initState) = true := by decide
        rw [h1, uploadedBeforeDraw_frames n _ h2]
        rfl
    | retNull => rfl
    | raises => rfl
